import Mathlib

/-!
Hello-triangle bootstrap and frame loop (`src/main.cpp`)

The program is one `main` routine and one helper, `checkShaderCompile`.  Everything it
does is a call into GLFW, GLAD or OpenGL, or a write to standard error, so a run is
modelled by

* an environment `Env`: what the outside world answers (the result of `glfwInit`,
  the window pointer, the loader result, the generated handles, the compile statuses and
  info logs, and the stream of `glfwWindowShouldClose` answers);
* the call trace: the list of external calls, with their arguments, in program order;
* the exit code, absent when the frame loop was cut off by the fuel bound (a run in
  which no close request has been observed yet).

Header constants (`GL_ARRAY_BUFFER`, `GLFW_OPENGL_PROFILE`, ...) are declared in the GLFW
and GLAD headers, which are not part of the repository; they are kept symbolic.
-/

namespace Triangle

/-- Symbolic OpenGL header constants used by `main.cpp`. -/
inductive GLenum where
  | GL_ARRAY_BUFFER
  | GL_STATIC_DRAW
  | GL_FLOAT
  | GL_FALSE
  | GL_VERTEX_SHADER
  | GL_FRAGMENT_SHADER
  | GL_COMPILE_STATUS
  | GL_COLOR_BUFFER_BIT
  | GL_TRIANGLES
  deriving DecidableEq

/-- Symbolic window-hint names of GLFW used by `main.cpp`. -/
inductive GlfwHint where
  | GLFW_CONTEXT_VERSION_MAJOR
  | GLFW_CONTEXT_VERSION_MINOR
  | GLFW_OPENGL_PROFILE
  | GLFW_OPENGL_FORWARD_COMPAT
  deriving DecidableEq

/-- The value argument of `glfwWindowHint`: an integer literal or a header constant. -/
inductive HintValue where
  | int (n : Int)
  | GLFW_OPENGL_CORE_PROFILE
  | GL_TRUE
  deriving DecidableEq

/-- A `float` literal as it is written in the source: `mantissa / 10 ^ scale`
(`0.5f` is `⟨5, 1⟩`, `-0.5f` is `⟨-5, 1⟩`, `0.0f` is `⟨0, 1⟩`).  The values are only
passed through to OpenGL, never computed with. -/
structure FloatLit where
  mantissa : Int
  scale : Nat
  deriving DecidableEq

/-- The size of a `float` in bytes (`sizeof(float)`; `GL_FLOAT` is a 32-bit type). -/
def sizeofFloat : Nat := 4

/-- One external call of the program, with the arguments passed.  Handles, pointers and
byte counts are natural numbers; the null pointer is `0`. -/
inductive Call where
  | glfwInit
  | glfwWindowHint (hint : GlfwHint) (value : HintValue)
  | glfwCreateWindow (width height : Nat) (title : String)
  | cerr (text : String)
  | glfwTerminate
  | glfwDestroyWindow (window : Nat)
  | glfwMakeContextCurrent (window : Nat)
  | gladLoadGLLoader
  | glViewport (x y width height : Nat)
  | glGenVertexArrays (n : Nat)
  | glGenBuffers (n : Nat)
  | glBindVertexArray (array : Nat)
  | glBindBuffer (target : GLenum) (buffer : Nat)
  | glBufferData (target : GLenum) (size : Nat) (data : List FloatLit) (usage : GLenum)
  | glVertexAttribPointer (index size : Nat) (type normalized : GLenum) (stride offset : Nat)
  | glEnableVertexAttribArray (index : Nat)
  | glCreateShader (type : GLenum)
  | glShaderSource (shader count : Nat) (source : String)
  | glCompileShader (shader : Nat)
  | glGetShaderiv (shader : Nat) (pname : GLenum)
  | glGetShaderInfoLog (shader bufSize : Nat)
  | glCreateProgram
  | glAttachShader (program shader : Nat)
  | glLinkProgram (program : Nat)
  | glDeleteShader (shader : Nat)
  | glDeleteProgram (program : Nat)
  | glfwWindowShouldClose (window : Nat)
  | glfwPollEvents
  | glClearColor (red green blue alpha : FloatLit)
  | glClear (mask : GLenum)
  | glUseProgram (program : Nat)
  | glDrawArrays (mode : GLenum) (first count : Nat)
  | glfwSwapBuffers (window : Nat)
  | glDeleteVertexArrays (n array : Nat)
  | glDeleteBuffers (n buffer : Nat)
  deriving DecidableEq

/-- The calls that go to the GPU through OpenGL (the `gl*` entry points), as opposed to
GLFW, the GLAD loader and standard error. -/
def Call.isGL : Call → Bool
  | .glfwInit => false
  | .glfwWindowHint _ _ => false
  | .glfwCreateWindow _ _ _ => false
  | .cerr _ => false
  | .glfwTerminate => false
  | .glfwDestroyWindow _ => false
  | .glfwMakeContextCurrent _ => false
  | .gladLoadGLLoader => false
  | .glfwWindowShouldClose _ => false
  | .glfwPollEvents => false
  | .glfwSwapBuffers _ => false
  | _ => true

/-- The calls that end the life of something a draw needs: the window system (and with it
the window and its context), the vertex array, the buffer or the shader program. -/
def Call.isRelease : Call → Bool
  | .glfwTerminate => true
  | .glfwDestroyWindow _ => true
  | .glDeleteVertexArrays _ _ => true
  | .glDeleteBuffers _ _ => true
  | .glDeleteProgram _ => true
  | _ => false

/-- What the outside world answers during one run. -/
structure Env where
  /-- result of `glfwInit()` (zero is failure) -/
  glfwInit : Int
  /-- pointer returned by `glfwCreateWindow` (zero is the null pointer) -/
  glfwCreateWindow : Nat
  /-- result of `gladLoadGLLoader` (zero is failure) -/
  gladLoadGLLoader : Int
  /-- handle stored into `VAO` by `glGenVertexArrays(1, &VAO)` -/
  VAO : Nat
  /-- handle stored into `VBO` by `glGenBuffers(1, &VBO)` -/
  VBO : Nat
  /-- handle returned by `glCreateShader(GL_VERTEX_SHADER)` -/
  vertexShader : Nat
  /-- compile status stored by `glGetShaderiv` for the vertex stage -/
  vertexStatus : Int
  /-- text stored into `infoLog` by `glGetShaderInfoLog` for the vertex stage -/
  vertexLog : String
  /-- handle returned by `glCreateShader(GL_FRAGMENT_SHADER)` -/
  fragmentShader : Nat
  /-- compile status stored by `glGetShaderiv` for the fragment stage -/
  fragmentStatus : Int
  /-- text stored into `infoLog` by `glGetShaderInfoLog` for the fragment stage -/
  fragmentLog : String
  /-- handle returned by `glCreateProgram()` -/
  shaderProgram : Nat
  /-- answer of the `k`-th evaluation (from 0) of `glfwWindowShouldClose(window)` -/
  glfwWindowShouldClose : Nat → Int

/-- The outcome of a run: the exit code returned by `main`, if it returned, and the
external calls made. -/
structure Run where
  code : Option Int
  trace : List Call
  deriving DecidableEq

/-- Vertex shader source code. -/
def vertexShaderSource : String :=
  "\n    #version 410 core\n    layout (location = 0) in vec3 aPos;\n    void main() \x7b\n        gl_Position = vec4(aPos, 1.0);\n    \x7d\n"

/-- Fragment shader source code. -/
def fragmentShaderSource : String :=
  "\n    #version 410 core\n    out vec4 FragColor;\n    void main() \x7b\n        FragColor = vec4(1.0, 0.5, 0.2, 1.0);\n    \x7d\n"

/-- Triangle vertices (`float vertices[]` in `main`): top, left, right. -/
def vertices : List FloatLit :=
  [⟨0, 1⟩, ⟨5, 1⟩, ⟨0, 1⟩,
   ⟨-5, 1⟩, ⟨-5, 1⟩, ⟨0, 1⟩,
   ⟨5, 1⟩, ⟨-5, 1⟩, ⟨0, 1⟩]

/-- The message `checkShaderCompile` streams to `std::cerr`. -/
def compileErrorMessage (type infoLog : String) : String :=
  "ERROR::SHADER_COMPILATION_ERROR of type: " ++ type ++ "\n" ++ infoLog ++ "\n"

/-- The helper `checkShaderCompile(shader, type)`: the calls it makes, given the status
that `glGetShaderiv` stores into `success` and the text that `glGetShaderInfoLog` stores
into `infoLog`. -/
def checkShaderCompile (success : Int) (infoLog : String) (shader : Nat) (type : String) :
    List Call :=
  [Call.glGetShaderiv shader .GL_COMPILE_STATUS] ++
    (if success = 0 then
      [Call.glGetShaderInfoLog shader 1024, Call.cerr (compileErrorMessage type infoLog)]
    else [])

/-- The body of the render loop: one frame. -/
def frame (window shaderProgram VAO : Nat) : List Call :=
  [ Call.glfwPollEvents,
    Call.glClearColor ⟨1, 1⟩ ⟨1, 1⟩ ⟨1, 1⟩ ⟨10, 1⟩,
    Call.glClear .GL_COLOR_BUFFER_BIT,
    Call.glUseProgram shaderProgram,
    Call.glBindVertexArray VAO,
    Call.glDrawArrays .GL_TRIANGLES 0 3,
    Call.glfwSwapBuffers window ]

/-- The loop `while (!glfwWindowShouldClose(window)) { ... }`, started at the `k`-th
evaluation of the loop head and allowed `fuel` evaluations of it.  The result says
whether the loop was left, and lists the calls made. -/
def renderLoop (e : Env) (window shaderProgram VAO : Nat) : Nat → Nat → Bool × List Call
  | 0, _ => (false, [])
  | fuel + 1, k =>
    if e.glfwWindowShouldClose k ≠ 0 then
      (true, [Call.glfwWindowShouldClose window])
    else
      let rest := renderLoop e window shaderProgram VAO fuel (k + 1)
      (rest.1, Call.glfwWindowShouldClose window :: frame window shaderProgram VAO ++ rest.2)

/-- The routine `main`, with `fuel` bounding the number of evaluations of the loop head. -/
def main (e : Env) (fuel : Nat) : Run :=
  -- Initialize GLFW
  let t := [Call.glfwInit]
  if e.glfwInit = 0 then ⟨some (-1), t⟩ else
  -- Request OpenGL 4.1 core profile
  let t := t ++
    [ Call.glfwWindowHint .GLFW_CONTEXT_VERSION_MAJOR (.int 4),
      Call.glfwWindowHint .GLFW_CONTEXT_VERSION_MINOR (.int 1),
      Call.glfwWindowHint .GLFW_OPENGL_PROFILE .GLFW_OPENGL_CORE_PROFILE,
      Call.glfwWindowHint .GLFW_OPENGL_FORWARD_COMPAT .GL_TRUE,
      Call.glfwCreateWindow 800 600 "Triangle" ]
  let window := e.glfwCreateWindow
  if window = 0 then
    ⟨some (-1), t ++ [Call.cerr "Failed to create GLFW window\n", Call.glfwTerminate]⟩
  else
  let t := t ++ [Call.glfwMakeContextCurrent window]
  -- Load OpenGL functions via GLAD
  let t := t ++ [Call.gladLoadGLLoader]
  if e.gladLoadGLLoader = 0 then
    ⟨some (-1), t ++ [Call.cerr "Failed to initialize GLAD\n"]⟩
  else
  -- Viewport setup
  let t := t ++ [Call.glViewport 0 0 800 600]
  -- Vertex Array Object and Vertex Buffer Object
  let VAO := e.VAO
  let VBO := e.VBO
  let t := t ++ [Call.glGenVertexArrays 1, Call.glGenBuffers 1]
  let t := t ++ [Call.glBindVertexArray VAO]
  -- Upload vertex data
  let t := t ++
    [ Call.glBindBuffer .GL_ARRAY_BUFFER VBO,
      Call.glBufferData .GL_ARRAY_BUFFER (vertices.length * sizeofFloat) vertices
        .GL_STATIC_DRAW ]
  -- Vertex attribute
  let t := t ++
    [ Call.glVertexAttribPointer 0 3 .GL_FLOAT .GL_FALSE (3 * sizeofFloat) 0,
      Call.glEnableVertexAttribArray 0 ]
  -- Compile shaders
  let vertexShader := e.vertexShader
  let t := t ++
    [ Call.glCreateShader .GL_VERTEX_SHADER,
      Call.glShaderSource vertexShader 1 vertexShaderSource,
      Call.glCompileShader vertexShader ]
  let t := t ++ checkShaderCompile e.vertexStatus e.vertexLog vertexShader "VERTEX"
  let fragmentShader := e.fragmentShader
  let t := t ++
    [ Call.glCreateShader .GL_FRAGMENT_SHADER,
      Call.glShaderSource fragmentShader 1 fragmentShaderSource,
      Call.glCompileShader fragmentShader ]
  let t := t ++ checkShaderCompile e.fragmentStatus e.fragmentLog fragmentShader "FRAGMENT"
  -- Create shader program
  let shaderProgram := e.shaderProgram
  let t := t ++
    [ Call.glCreateProgram,
      Call.glAttachShader shaderProgram vertexShader,
      Call.glAttachShader shaderProgram fragmentShader,
      Call.glLinkProgram shaderProgram ]
  -- Delete shaders after linking
  let t := t ++ [Call.glDeleteShader vertexShader, Call.glDeleteShader fragmentShader]
  -- Main render loop
  let loop := renderLoop e window shaderProgram VAO fuel 0
  let t := t ++ loop.2
  if loop.1 = false then ⟨none, t⟩ else
  -- Cleanup
  let t := t ++
    [ Call.glDeleteVertexArrays 1 VAO,
      Call.glDeleteBuffers 1 VBO,
      Call.glfwTerminate ]
  ⟨some 0, t⟩

/-! ## The pieces of a run and the sample environments -/

/-- The loop-head test `glfwWindowShouldClose(window)`. -/
def loopHead (e : Env) : Call := Call.glfwWindowShouldClose e.glfwCreateWindow

/-- One frame of a run in environment `e`. -/
def frameCalls (e : Env) : List Call := frame e.glfwCreateWindow e.shaderProgram e.VAO

/-- The render loop of a run in environment `e`. -/
def loopRun (e : Env) (fuel : Nat) : Bool × List Call :=
  renderLoop e e.glfwCreateWindow e.shaderProgram e.VAO fuel 0

/-- The calls up to and including the function loader. -/
def contextCalls (e : Env) : List Call :=
  [ Call.glfwInit,
    Call.glfwWindowHint .GLFW_CONTEXT_VERSION_MAJOR (.int 4),
    Call.glfwWindowHint .GLFW_CONTEXT_VERSION_MINOR (.int 1),
    Call.glfwWindowHint .GLFW_OPENGL_PROFILE .GLFW_OPENGL_CORE_PROFILE,
    Call.glfwWindowHint .GLFW_OPENGL_FORWARD_COMPAT .GL_TRUE,
    Call.glfwCreateWindow 800 600 "Triangle",
    Call.glfwMakeContextCurrent e.glfwCreateWindow,
    Call.gladLoadGLLoader ]

/-- The geometry setup sequence: generate one vertex array, generate one buffer, bind the
vertex array, bind the buffer, upload, declare attribute 0, enable attribute 0. -/
def geometrySetup (e : Env) : List Call :=
  [ Call.glGenVertexArrays 1,
    Call.glGenBuffers 1,
    Call.glBindVertexArray e.VAO,
    Call.glBindBuffer .GL_ARRAY_BUFFER e.VBO,
    Call.glBufferData .GL_ARRAY_BUFFER 36 vertices .GL_STATIC_DRAW,
    Call.glVertexAttribPointer 0 3 .GL_FLOAT .GL_FALSE 12 0,
    Call.glEnableVertexAttribArray 0 ]

/-- The shader build: compile and check both stages, link, discard the stage objects. -/
def shaderBuild (e : Env) : List Call :=
  [ Call.glCreateShader .GL_VERTEX_SHADER,
    Call.glShaderSource e.vertexShader 1 vertexShaderSource,
    Call.glCompileShader e.vertexShader ] ++
  checkShaderCompile e.vertexStatus e.vertexLog e.vertexShader "VERTEX" ++
  [ Call.glCreateShader .GL_FRAGMENT_SHADER,
    Call.glShaderSource e.fragmentShader 1 fragmentShaderSource,
    Call.glCompileShader e.fragmentShader ] ++
  checkShaderCompile e.fragmentStatus e.fragmentLog e.fragmentShader "FRAGMENT" ++
  [ Call.glCreateProgram,
    Call.glAttachShader e.shaderProgram e.vertexShader,
    Call.glAttachShader e.shaderProgram e.fragmentShader,
    Call.glLinkProgram e.shaderProgram,
    Call.glDeleteShader e.vertexShader,
    Call.glDeleteShader e.fragmentShader ]

/-- Everything a run does before the first evaluation of the loop head. -/
def setupCalls (e : Env) : List Call :=
  contextCalls e ++ [Call.glViewport 0 0 800 600] ++ geometrySetup e ++ shaderBuild e

/-- The teardown sequence. -/
def teardownCalls (e : Env) : List Call :=
  [ Call.glDeleteVertexArrays 1 e.VAO,
    Call.glDeleteBuffers 1 e.VBO,
    Call.glfwTerminate ]

/-- The first close request is the answer number `n`: `glfwWindowShouldClose` answers
false `n` times and then true. -/
def ClosesAt (e : Env) (n : Nat) : Prop :=
  (∀ k, k < n → e.glfwWindowShouldClose k = 0) ∧ e.glfwWindowShouldClose n ≠ 0

instance (e : Env) (n : Nat) : Decidable (ClosesAt e n) :=
  inferInstanceAs (Decidable ((∀ k, k < n → e.glfwWindowShouldClose k = 0) ∧
    e.glfwWindowShouldClose n ≠ 0))

/-- Number of positions of `l` at which the sequence `pat` starts. -/
def occurrences (pat : List Call) : List Call → Nat
  | [] => if pat.isPrefixOf [] then 1 else 0
  | c :: l => (if pat.isPrefixOf (c :: l) then 1 else 0) + occurrences pat l

/-- Number of buffer handles requested by the `glGenBuffers` calls of a trace. -/
def buffersGenerated (t : List Call) : Nat :=
  (t.filterMap fun c => match c with
    | .glGenBuffers n => some n
    | _ => none).sum

/-- Number of buffer handles released by the `glDeleteBuffers` calls of a trace: a call
`glDeleteBuffers(n, ...)` releases `n` handles. -/
def buffersDeleted (t : List Call) : Nat :=
  (t.filterMap fun c => match c with
    | .glDeleteBuffers n _ => some n
    | _ => none).sum

/-- The `glDeleteBuffers` calls of a trace, in order: the count passed and the handle held
by the variable whose address is passed. -/
def bufferDeleteCalls (t : List Call) : List (Nat × Nat) :=
  t.filterMap fun c => match c with
    | .glDeleteBuffers n b => some (n, b)
    | _ => none

/-- Number of vertex-array handles requested by the `glGenVertexArrays` calls of a trace. -/
def arraysGenerated (t : List Call) : Nat :=
  (t.filterMap fun c => match c with
    | .glGenVertexArrays n => some n
    | _ => none).sum

/-- Number of vertex-array handles released by the `glDeleteVertexArrays` calls of a
trace: a call `glDeleteVertexArrays(n, ...)` releases `n` handles. -/
def arraysDeleted (t : List Call) : Nat :=
  (t.filterMap fun c => match c with
    | .glDeleteVertexArrays n _ => some n
    | _ => none).sum

/-- The `glDeleteVertexArrays` calls of a trace, in order: the count passed and the handle
held by the variable whose address is passed. -/
def arrayDeleteCalls (t : List Call) : List (Nat × Nat) :=
  t.filterMap fun c => match c with
    | .glDeleteVertexArrays n a => some (n, a)
    | _ => none

/-- The counts passed to the `glGenBuffers` calls of a trace, in order. -/
def bufferGenCalls (t : List Call) : List Nat :=
  t.filterMap fun c => match c with
    | .glGenBuffers n => some n
    | _ => none

/-- The counts passed to the `glGenVertexArrays` calls of a trace, in order. -/
def arrayGenCalls (t : List Call) : List Nat :=
  t.filterMap fun c => match c with
    | .glGenVertexArrays n => some n
    | _ => none

/-- A sample environment: everything succeeds, the handles are distinct small numbers and
the third evaluation of the loop head sees the close request (two frames are drawn). -/
def envOk : Env where
  glfwInit := 1
  glfwCreateWindow := 7
  gladLoadGLLoader := 1
  VAO := 1
  VBO := 2
  vertexShader := 3
  vertexStatus := 1
  vertexLog := ""
  fragmentShader := 4
  fragmentStatus := 1
  fragmentLog := ""
  shaderProgram := 5
  glfwWindowShouldClose := fun k => if k = 2 then 1 else 0

/-- The sample environment with a window that cannot be created. -/
def envNoWindow : Env := { envOk with glfwCreateWindow := 0 }

/-- The sample environment with a function loader that fails. -/
def envNoLoader : Env := { envOk with gladLoadGLLoader := 0 }

/-- The sample environment with a fragment stage that does not compile. -/
def envBadFragment : Env :=
  { envOk with fragmentStatus := 0, fragmentLog := "0:4: undeclared identifier" }

/-- The sample environment with a vertex stage that does not compile. -/
def envBadVertex : Env := { envOk with vertexStatus := 0, vertexLog := "0:1: syntax error" }

/-! ## Lemmas on the embedding -/

theorem main_of_ok (e : Env) (fuel : Nat) (hi : e.glfwInit ≠ 0) (hw : e.glfwCreateWindow ≠ 0)
    (hl : e.gladLoadGLLoader ≠ 0) :
    main e fuel =
      ⟨if (loopRun e fuel).1 then some 0 else none,
       setupCalls e ++ (loopRun e fuel).2 ++
         if (loopRun e fuel).1 then teardownCalls e else []⟩ := by
  cases hb : (loopRun e fuel).1 <;>
    simp [main, hi, hw, hl, loopRun, setupCalls, contextCalls, geometrySetup, shaderBuild,
      teardownCalls, vertices, sizeofFloat] at hb ⊢ <;> simp [hb]

theorem renderLoop_closes (e : Env) (w p v : Nat) :
    ∀ (n fuel k : Nat), (∀ j, j < n → e.glfwWindowShouldClose (k + j) = 0) →
      e.glfwWindowShouldClose (k + n) ≠ 0 → n < fuel →
      renderLoop e w p v fuel k =
        (true, (List.replicate n (Call.glfwWindowShouldClose w :: frame w p v)).flatten ++
          [Call.glfwWindowShouldClose w]) := by
  intro n
  induction n with
  | zero =>
    intro fuel k _ hc hf
    obtain ⟨f, rfl⟩ : ∃ f, fuel = f + 1 := ⟨fuel - 1, by omega⟩
    simp only [Nat.add_zero] at hc
    simp [renderLoop, hc]
  | succ n ih =>
    intro fuel k h0 hc hf
    obtain ⟨f, rfl⟩ : ∃ f, fuel = f + 1 := ⟨fuel - 1, by omega⟩
    have hk : e.glfwWindowShouldClose k = 0 := by simpa using h0 0 (by omega)
    have ih1 := ih f (k + 1)
      (fun j hj => by have := h0 (j + 1) (by omega); rwa [show k + 1 + j = k + (j + 1) by omega])
      (by rwa [show k + 1 + n = k + (n + 1) by omega]) (by omega)
    simp [renderLoop, hk, ih1, List.replicate_succ]

theorem renderLoop_open (e : Env) (w p v : Nat) :
    ∀ (fuel k : Nat), (∀ j, j < fuel → e.glfwWindowShouldClose (k + j) = 0) →
      renderLoop e w p v fuel k =
        (false, (List.replicate fuel (Call.glfwWindowShouldClose w :: frame w p v)).flatten) := by
  intro fuel
  induction fuel with
  | zero => intro k _; simp [renderLoop]
  | succ f ih =>
    intro k h0
    have hk : e.glfwWindowShouldClose k = 0 := by simpa using h0 0 (by omega)
    have ih1 := ih (k + 1)
      (fun j hj => by have := h0 (j + 1) (by omega); rwa [show k + 1 + j = k + (j + 1) by omega])
    simp [renderLoop, hk, ih1, List.replicate_succ]

theorem renderLoop_mem (e : Env) (w p v : Nat) :
    ∀ (fuel k : Nat) (c : Call), c ∈ (renderLoop e w p v fuel k).2 →
      c = Call.glfwWindowShouldClose w ∨ c ∈ frame w p v := by
  intro fuel
  induction fuel with
  | zero => intro k c hc; simp [renderLoop] at hc
  | succ f ih =>
    intro k c hc
    by_cases hk : e.glfwWindowShouldClose k = 0
    · have hc2 : c = Call.glfwWindowShouldClose w ∨ c ∈ frame w p v ∨
          c ∈ (renderLoop e w p v f (k + 1)).2 := by
        simpa [renderLoop, hk] using hc
      rcases hc2 with hc | hc | hc
      · exact Or.inl hc
      · exact Or.inr hc
      · exact ih (k + 1) c hc
    · simp [renderLoop, hk] at hc
      exact Or.inl hc

theorem renderLoop_head (e : Env) (w p v : Nat) (fuel k : Nat) (hf : 0 < fuel) :
    Call.glfwWindowShouldClose w ∈ (renderLoop e w p v fuel k).2 := by
  obtain ⟨f, rfl⟩ : ∃ f, fuel = f + 1 := ⟨fuel - 1, by omega⟩
  by_cases hk : e.glfwWindowShouldClose k = 0 <;> simp [renderLoop, hk]

theorem loopRun_closes (e : Env) (n fuel : Nat) (hc : ClosesAt e n) (hf : n < fuel) :
    loopRun e fuel =
      (true, (List.replicate n (loopHead e :: frameCalls e)).flatten ++ [loopHead e]) := by
  unfold loopRun loopHead frameCalls
  exact renderLoop_closes e _ _ _ n fuel 0 (fun j hj => by simpa using hc.1 j hj)
    (by simpa using hc.2) hf

theorem loopRun_open (e : Env) (fuel : Nat) (h0 : ∀ k, k < fuel → e.glfwWindowShouldClose k = 0) :
    loopRun e fuel = (false, (List.replicate fuel (loopHead e :: frameCalls e)).flatten) := by
  unfold loopRun loopHead frameCalls
  exact renderLoop_open e _ _ _ fuel 0 (fun j hj => by simpa using h0 j hj)

theorem exists_closesAt (e : Env) :
    ∀ (fuel : Nat), (∃ k, k < fuel ∧ e.glfwWindowShouldClose k ≠ 0) →
      ∃ n, n < fuel ∧ ClosesAt e n := by
  intro fuel
  induction fuel with
  | zero => rintro ⟨k, hk, _⟩; omega
  | succ f ih =>
    rintro ⟨k, hk, hne⟩
    by_cases h : ∃ j, j < f ∧ e.glfwWindowShouldClose j ≠ 0
    · obtain ⟨n, hn, hc⟩ := ih h
      exact ⟨n, by omega, hc⟩
    · have h0 : ∀ j, j < f → e.glfwWindowShouldClose j = 0 := by
        intro j hj
        by_contra hj0
        exact h ⟨j, hj, hj0⟩
      have hkf : k = f := by
        by_contra hkf
        exact hne (h0 k (by omega))
      exact ⟨f, by omega, h0, hkf ▸ hne⟩

theorem main_closes (e : Env) (n fuel : Nat) (hi : e.glfwInit ≠ 0) (hw : e.glfwCreateWindow ≠ 0)
    (hl : e.gladLoadGLLoader ≠ 0) (hc : ClosesAt e n) (hf : n < fuel) :
    main e fuel =
      ⟨some 0, setupCalls e ++
        ((List.replicate n (loopHead e :: frameCalls e)).flatten ++ [loopHead e]) ++
        teardownCalls e⟩ := by
  rw [main_of_ok e fuel hi hw hl, loopRun_closes e n fuel hc hf]
  simp

theorem renderLoop_congr (e e2 : Env) (w p v : Nat)
    (h : e2.glfwWindowShouldClose = e.glfwWindowShouldClose) :
    ∀ (fuel k : Nat), renderLoop e2 w p v fuel k = renderLoop e w p v fuel k := by
  intro fuel
  induction fuel with
  | zero => intro k; simp [renderLoop]
  | succ f ih => intro k; simp [renderLoop, h, ih]

theorem main_window_null (e : Env) (fuel : Nat) (hi : e.glfwInit ≠ 0)
    (hw : e.glfwCreateWindow = 0) :
    main e fuel =
      ⟨some (-1),
       [ Call.glfwInit,
         Call.glfwWindowHint .GLFW_CONTEXT_VERSION_MAJOR (.int 4),
         Call.glfwWindowHint .GLFW_CONTEXT_VERSION_MINOR (.int 1),
         Call.glfwWindowHint .GLFW_OPENGL_PROFILE .GLFW_OPENGL_CORE_PROFILE,
         Call.glfwWindowHint .GLFW_OPENGL_FORWARD_COMPAT .GL_TRUE,
         Call.glfwCreateWindow 800 600 "Triangle",
         Call.cerr "Failed to create GLFW window\n",
         Call.glfwTerminate ]⟩ := by
  simp [main, hi, hw]

theorem main_loader_fails (e : Env) (fuel : Nat) (hi : e.glfwInit ≠ 0)
    (hw : e.glfwCreateWindow ≠ 0) (hl : e.gladLoadGLLoader = 0) :
    main e fuel =
      ⟨some (-1), contextCalls e ++ [Call.cerr "Failed to initialize GLAD\n"]⟩ := by
  simp [main, hi, hw, hl, contextCalls]

theorem setupCalls_no_release (e : Env) : ∀ c, c ∈ setupCalls e → c.isRelease = false := by
  intro c hc
  have h : (setupCalls e).all (fun c => !c.isRelease) = true := by
    simp only [setupCalls, contextCalls, geometrySetup, shaderBuild, checkShaderCompile]
    split <;> split <;> simp [Call.isRelease]
  simpa using List.all_eq_true.mp h c hc

theorem frame_no_release (w p v : Nat) : ∀ c, c ∈ frame w p v → c.isRelease = false := by
  intro c hc
  have h : (frame w p v).all (fun c => !c.isRelease) = true := by
    simp [frame, Call.isRelease]
  simpa using List.all_eq_true.mp h c hc

theorem loopRun_no_release (e : Env) (fuel : Nat) :
    ∀ c, c ∈ (loopRun e fuel).2 → c.isRelease = false := by
  intro c hc
  rcases renderLoop_mem e _ _ _ fuel 0 c hc with rfl | h
  · rfl
  · exact frame_no_release _ _ _ c h

theorem loopHead_not_mem_frameCalls (e : Env) : loopHead e ∉ frameCalls e := by
  simp [loopHead, frameCalls, frame]

theorem filter_frames (h : Call) (fr : List Call) (hfr : h ∉ fr) (n : Nat) :
    ((List.replicate n (h :: fr)).flatten ++ [h]).filter (fun c => decide (c ≠ h)) =
      (List.replicate n fr).flatten := by
  have hself : fr.filter (fun c => decide (c ≠ h)) = fr := by
    apply List.filter_eq_self.mpr
    intro c hc
    have : c ≠ h := fun hch => hfr (hch ▸ hc)
    simpa using this
  induction n with
  | zero => simp
  | succ n ih =>
    simp only [List.replicate_succ, List.flatten_cons, List.cons_append, List.append_assoc]
    rw [List.filter_cons_of_neg (by simp), List.filter_append, hself, ih]

theorem split_left {α : Type} {pre post A B : List α} {c : α}
    (h : pre ++ c :: post = A ++ B) (hc : c ∉ A) :
    ∃ mid, pre = A ++ mid ∧ B = mid ++ c :: post := by
  rcases List.append_eq_append_iff.mp h with ⟨a2, hA, hB⟩ | ⟨c2, hpre, hB⟩
  · cases a2 with
    | nil => exact ⟨[], by simpa using hA.symm, by simpa using hB.symm⟩
    | cons x a3 =>
      simp only [List.cons_append, List.cons.injEq] at hB
      exact absurd (by rw [hA, hB.1]; simp) hc
  · exact ⟨c2, hpre, hB⟩

theorem split_right {α : Type} {pre post A B : List α} {c : α}
    (h : pre ++ c :: post = A ++ B) (hc : c ∉ B) :
    ∃ rest, A = pre ++ c :: rest := by
  rcases List.append_eq_append_iff.mp h with ⟨a2, hA, hB⟩ | ⟨c2, _, hB⟩
  · cases a2 with
    | nil => exact absurd (by rw [← show c :: post = B by simpa using hB]; simp) hc
    | cons x a3 =>
      simp only [List.cons_append, List.cons.injEq] at hB
      exact ⟨a3, by rw [hA, hB.1]⟩
  · exact absurd (by rw [hB]; simp) hc

theorem main_not_ok_no_gl (e : Env) (fuel : Nat)
    (h : e.glfwInit = 0 ∨ e.glfwCreateWindow = 0 ∨ e.gladLoadGLLoader = 0) :
    ∀ c, c ∈ (main e fuel).trace → c.isGL = false := by
  intro c hc
  by_cases hi : e.glfwInit = 0
  · have : (main e fuel).trace = [Call.glfwInit] := by simp [main, hi]
    rw [this] at hc
    simp only [List.mem_singleton] at hc
    rw [hc]; rfl
  by_cases hw : e.glfwCreateWindow = 0
  · rw [main_window_null e fuel hi hw] at hc
    simp only [List.mem_cons, List.mem_singleton, List.not_mem_nil, or_false] at hc
    rcases hc with rfl | rfl | rfl | rfl | rfl | rfl | rfl | rfl <;> rfl
  have hl : e.gladLoadGLLoader = 0 := by
    rcases h with h | h | h
    · exact absurd h hi
    · exact absurd h hw
    · exact h
  rw [main_loader_fails e fuel hi hw hl] at hc
  simp only [contextCalls, List.cons_append, List.nil_append, List.mem_cons,
    List.mem_singleton, List.not_mem_nil, or_false] at hc
  rcases hc with rfl | rfl | rfl | rfl | rfl | rfl | rfl | rfl | rfl <;> rfl

theorem contextCalls_no_gl (e : Env) : ∀ c, c ∈ contextCalls e → c.isGL = false := by
  intro c hc
  simp only [contextCalls, List.mem_cons, List.mem_singleton, List.not_mem_nil,
    or_false] at hc
  rcases hc with rfl | rfl | rfl | rfl | rfl | rfl | rfl | rfl <;> rfl

theorem draw_not_mem_setupCalls (e : Env) (m : GLenum) (f k : Nat) :
    Call.glDrawArrays m f k ∉ setupCalls e := by
  simp only [setupCalls, contextCalls, geometrySetup, shaderBuild, checkShaderCompile]
  split <;> split <;> simp

theorem main_ok_trace (e : Env) (fuel : Nat) (hi : e.glfwInit ≠ 0)
    (hw : e.glfwCreateWindow ≠ 0) (hl : e.gladLoadGLLoader ≠ 0) :
    (main e fuel).trace = setupCalls e ++ ((loopRun e fuel).2 ++
      if (loopRun e fuel).1 then teardownCalls e else []) := by
  rw [main_of_ok e fuel hi hw hl]
  simp

theorem occurrences_eq_zero (a : Call) (p : List Call) :
    ∀ l : List Call, a ∉ l → occurrences (a :: p) l = 0 := by
  intro l
  induction l with
  | nil => intro _; simp [occurrences, List.isPrefixOf]
  | cons x l ih =>
    intro h
    have hx : a ≠ x := fun hax => h (by simp [hax])
    have hl : a ∉ l := fun hal => h (by simp [hal])
    simp [occurrences, List.isPrefixOf, hx, ih hl]

theorem occurrences_append (a : Call) (p l : List Call) :
    ∀ pre : List Call, a ∉ pre → occurrences (a :: p) (pre ++ l) = occurrences (a :: p) l := by
  intro pre
  induction pre with
  | nil => intro _; rfl
  | cons x pre ih =>
    intro h
    have hx : a ≠ x := fun hax => h (by simp [hax])
    have hl : a ∉ pre := fun hal => h (by simp [hal])
    simp [occurrences, List.isPrefixOf, hx, ih hl]

theorem occurrences_self (a : Call) (p l : List Call) (h : a ∉ p ++ l) :
    occurrences (a :: p) ((a :: p) ++ l) = 1 := by
  have hq : ∀ q : List Call, q.isPrefixOf (q ++ l) = true := by
    intro q
    induction q with
    | nil => simp [List.isPrefixOf]
    | cons x q ih => simp [List.isPrefixOf, ih]
  have hp : p.isPrefixOf (p ++ l) = true := hq p
  simp [occurrences, List.isPrefixOf, hp, occurrences_eq_zero a p (p ++ l) h]

theorem main_ok_mem (e : Env) (fuel : Nat) (hi : e.glfwInit ≠ 0)
    (hw : e.glfwCreateWindow ≠ 0) (hl : e.gladLoadGLLoader ≠ 0) (c : Call)
    (hc : c ∈ (main e fuel).trace) :
    c ∈ contextCalls e ∨ c = Call.glViewport 0 0 800 600 ∨ c ∈ geometrySetup e ∨
      c ∈ shaderBuild e ∨ c = loopHead e ∨ c ∈ frameCalls e ∨ c ∈ teardownCalls e := by
  rw [main_ok_trace e fuel hi hw hl] at hc
  simp only [setupCalls, List.mem_append, List.mem_singleton] at hc
  rcases hc with (((h | h) | h) | h) | h | h
  · exact Or.inl h
  · exact Or.inr (Or.inl h)
  · exact Or.inr (Or.inr (Or.inl h))
  · exact Or.inr (Or.inr (Or.inr (Or.inl h)))
  · rcases renderLoop_mem e _ _ _ fuel 0 c h with h2 | h2
    · exact Or.inr (Or.inr (Or.inr (Or.inr (Or.inl h2))))
    · exact Or.inr (Or.inr (Or.inr (Or.inr (Or.inr (Or.inl h2)))))
  · split at h
    · exact Or.inr (Or.inr (Or.inr (Or.inr (Or.inr (Or.inr h)))))
    · cases h

theorem shaderBuild_mem_cases (e : Env) (c : Call) (hc : c ∈ shaderBuild e) :
    (∃ t, c = Call.glCreateShader t) ∨ (∃ s k src, c = Call.glShaderSource s k src) ∨
    (∃ s, c = Call.glCompileShader s) ∨ (∃ s q, c = Call.glGetShaderiv s q) ∨
    (∃ s k, c = Call.glGetShaderInfoLog s k) ∨ (∃ t, c = Call.cerr t) ∨
    c = Call.glCreateProgram ∨ (∃ q s, c = Call.glAttachShader q s) ∨
    (∃ q, c = Call.glLinkProgram q) ∨ (∃ s, c = Call.glDeleteShader s) := by
  simp only [shaderBuild, checkShaderCompile] at hc
  split at hc <;> split at hc <;>
    simp only [List.cons_append, List.nil_append, List.append_nil, List.mem_cons,
      List.mem_singleton, List.not_mem_nil, or_false] at hc <;>
    rcases hc with rfl | rfl | rfl | rfl | rfl | rfl | rfl | rfl | rfl | rfl | rfl | rfl |
      rfl | rfl | rfl | rfl | rfl | rfl <;> simp

/-! ## The claims -/

/-- C1: whatever the environment answers, `main` returns -1 when `glfwInit` fails, when
window creation fails (a null window) and when the function loader fails, and it returns
0 when initialization succeeds and a close request is observed (the answer number `n` is
the first true one and the loop is given more than `n` evaluations of its head). -/
theorem exit_codes (e : Env) (fuel : Nat) :
    (e.glfwInit = 0 → (main e fuel).code = some (-1)) ∧
    (e.glfwInit ≠ 0 → e.glfwCreateWindow = 0 → (main e fuel).code = some (-1)) ∧
    (e.glfwInit ≠ 0 → e.glfwCreateWindow ≠ 0 → e.gladLoadGLLoader = 0 →
      (main e fuel).code = some (-1)) ∧
    (∀ n, e.glfwInit ≠ 0 → e.glfwCreateWindow ≠ 0 → e.gladLoadGLLoader ≠ 0 →
      ClosesAt e n → n < fuel → (main e fuel).code = some 0) := by
  refine ⟨?_, ?_, ?_, ?_⟩
  · intro hi
    simp [main, hi]
  · intro hi hw
    rw [main_window_null e fuel hi hw]
  · intro hi hw hl
    rw [main_loader_fails e fuel hi hw hl]
  · intro n hi hw hl hc hf
    rw [main_closes e n fuel hi hw hl hc hf]

/-- Witness of C1 on the sample environments: no window, no loader, and a close request
at the third evaluation of the loop head. -/
theorem exit_codes_witness :
    (envNoWindow.glfwInit ≠ 0 ∧ envNoWindow.glfwCreateWindow = 0 ∧
      (main envNoWindow 0).code = some (-1)) ∧
    (envNoLoader.glfwInit ≠ 0 ∧ envNoLoader.glfwCreateWindow ≠ 0 ∧
      envNoLoader.gladLoadGLLoader = 0 ∧ (main envNoLoader 0).code = some (-1)) ∧
    (envOk.glfwInit ≠ 0 ∧ envOk.glfwCreateWindow ≠ 0 ∧ envOk.gladLoadGLLoader ≠ 0 ∧
      ClosesAt envOk 2 ∧ 2 < 3 ∧ (main envOk 3).code = some 0) :=
  ⟨⟨by decide, by decide, (exit_codes envNoWindow 0).2.1 (by decide) (by decide)⟩,
   ⟨by decide, by decide, by decide,
    (exit_codes envNoLoader 0).2.2.1 (by decide) (by decide) (by decide)⟩,
   ⟨by decide, by decide, by decide, by decide, by decide,
    (exit_codes envOk 3).2.2.2 2 (by decide) (by decide) (by decide) (by decide) (by decide)⟩⟩

/-- C2: when `glfwCreateWindow` returns a null window, `main` exits with the nonzero code
-1; its trace is the GLFW start-up, the failed creation, the message on standard error
and `glfwTerminate`, and it contains no OpenGL call and no `gladLoadGLLoader` call. -/
theorem window_failure_no_gpu_call (e : Env) (fuel : Nat) (hi : e.glfwInit ≠ 0)
    (hw : e.glfwCreateWindow = 0) :
    (∃ x, (main e fuel).code = some x ∧ x ≠ 0) ∧
    (∃ pre, (main e fuel).trace =
        pre ++ [Call.glfwCreateWindow 800 600 "Triangle",
          Call.cerr "Failed to create GLFW window\n", Call.glfwTerminate] ∧
      Call.glfwCreateWindow 800 600 "Triangle" ∉ pre) ∧
    (∀ c, c ∈ (main e fuel).trace → c.isGL = false ∧ c ≠ Call.gladLoadGLLoader) := by
  rw [main_window_null e fuel hi hw]
  refine ⟨⟨-1, rfl, by decide⟩,
    ⟨[ Call.glfwInit,
       Call.glfwWindowHint .GLFW_CONTEXT_VERSION_MAJOR (.int 4),
       Call.glfwWindowHint .GLFW_CONTEXT_VERSION_MINOR (.int 1),
       Call.glfwWindowHint .GLFW_OPENGL_PROFILE .GLFW_OPENGL_CORE_PROFILE,
       Call.glfwWindowHint .GLFW_OPENGL_FORWARD_COMPAT .GL_TRUE ], rfl, by simp⟩, ?_⟩
  intro c hc
  simp only [List.mem_cons, List.mem_singleton, List.not_mem_nil, or_false] at hc
  rcases hc with rfl | rfl | rfl | rfl | rfl | rfl | rfl | rfl <;> simp [Call.isGL]

/-- Witness of C2 on the sample environment without a window. -/
theorem window_failure_no_gpu_call_witness :
    envNoWindow.glfwInit ≠ 0 ∧ envNoWindow.glfwCreateWindow = 0 ∧
    ((∃ x, (main envNoWindow 4).code = some x ∧ x ≠ 0) ∧
    (∃ pre, (main envNoWindow 4).trace =
        pre ++ [Call.glfwCreateWindow 800 600 "Triangle",
          Call.cerr "Failed to create GLFW window\n", Call.glfwTerminate] ∧
      Call.glfwCreateWindow 800 600 "Triangle" ∉ pre) ∧
    (∀ c, c ∈ (main envNoWindow 4).trace → c.isGL = false ∧ c ≠ Call.gladLoadGLLoader)) :=
  ⟨by decide, by decide, window_failure_no_gpu_call envNoWindow 4 (by decide) (by decide)⟩

/-- C3, as stated, fails: in the sample environment whose function loader fails, `glfwInit`
succeeds, the window is non-null and the context is made current, and yet `main` returns
-1 without ever evaluating the loop head, whatever the fuel. -/
theorem context_ok_loader_fails_no_loop :
    envNoLoader.glfwInit ≠ 0 ∧ envNoLoader.glfwCreateWindow ≠ 0 ∧
    (∀ fuel, Call.glfwMakeContextCurrent envNoLoader.glfwCreateWindow ∈
        (main envNoLoader fuel).trace ∧
      loopHead envNoLoader ∉ (main envNoLoader fuel).trace ∧
      (main envNoLoader fuel).code = some (-1)) := by
  refine ⟨by decide, by decide, fun fuel => ?_⟩
  rw [main_loader_fails envNoLoader fuel (by decide) (by decide) (by decide)]
  decide

/-- C3, amended: when context creation succeeds and the function loader succeeds, `main`
reaches the frame loop (the loop head is evaluated), it has not returned as long as every
answer of `glfwWindowShouldClose` was false, and it returns 0 once a close request is
among the answers: it never returns a nonzero code. -/
theorem reaches_frame_loop (e : Env) (fuel : Nat) (hi : e.glfwInit ≠ 0)
    (hw : e.glfwCreateWindow ≠ 0) (hl : e.gladLoadGLLoader ≠ 0) (hf : 0 < fuel) :
    loopHead e ∈ (main e fuel).trace ∧
    ((∀ k, k < fuel → e.glfwWindowShouldClose k = 0) → (main e fuel).code = none) ∧
    ((∃ k, k < fuel ∧ e.glfwWindowShouldClose k ≠ 0) → (main e fuel).code = some 0) ∧
    (∀ x, (main e fuel).code = some x → x = 0) := by
  have hcode : (main e fuel).code = if (loopRun e fuel).1 then some 0 else none := by
    rw [main_of_ok e fuel hi hw hl]
  refine ⟨?_, ?_, ?_, ?_⟩
  · rw [main_of_ok e fuel hi hw hl]
    have := renderLoop_head e e.glfwCreateWindow e.shaderProgram e.VAO fuel 0 hf
    simp only [List.mem_append]
    exact Or.inl (Or.inr this)
  · intro h0
    rw [hcode, loopRun_open e fuel h0]
    rfl
  · intro hex
    obtain ⟨n, hn, hc⟩ := exists_closesAt e fuel hex
    rw [main_closes e n fuel hi hw hl hc hn]
  · intro x hx
    rw [hcode] at hx
    split at hx
    · exact (Option.some.inj hx).symm
    · cases hx

/-- Witness of the amended C3 on the sample environment, with room for four evaluations of
the loop head. -/
theorem reaches_frame_loop_witness :
    envOk.glfwInit ≠ 0 ∧ envOk.glfwCreateWindow ≠ 0 ∧ envOk.gladLoadGLLoader ≠ 0 ∧ 0 < 4 ∧
    (loopHead envOk ∈ (main envOk 4).trace ∧
    ((∀ k, k < 4 → envOk.glfwWindowShouldClose k = 0) → (main envOk 4).code = none) ∧
    ((∃ k, k < 4 ∧ envOk.glfwWindowShouldClose k ≠ 0) → (main envOk 4).code = some 0) ∧
    (∀ x, (main envOk 4).code = some x → x = 0)) :=
  ⟨by decide, by decide, by decide, by decide,
   reaches_frame_loop envOk 4 (by decide) (by decide) (by decide) (by decide)⟩

/-- C8 fails on the loader-failure path: in the sample environment whose function loader
fails, the window is created (once) and `main` returns -1 with neither `glfwTerminate` nor
`glfwDestroyWindow` in its trace, whatever the fuel. -/
theorem loader_failure_leaves_window :
    envNoLoader.glfwInit ≠ 0 ∧ envNoLoader.glfwCreateWindow ≠ 0 ∧
    envNoLoader.gladLoadGLLoader = 0 ∧
    (∀ fuel,
      (main envNoLoader fuel).code = some (-1) ∧
      (main envNoLoader fuel).trace.count (Call.glfwCreateWindow 800 600 "Triangle") = 1 ∧
      Call.glfwTerminate ∉ (main envNoLoader fuel).trace ∧
      ∀ w, Call.glfwDestroyWindow w ∉ (main envNoLoader fuel).trace) := by
  refine ⟨by decide, by decide, by decide, fun fuel => ?_⟩
  rw [main_loader_fails envNoLoader fuel (by decide) (by decide) (by decide)]
  refine ⟨rfl, by decide, by decide, fun w => ?_⟩
  simp [contextCalls]

/-- C9: in a run that ends by a close-triggered shutdown, what follows the last evaluation
of the loop head is exactly `glDeleteVertexArrays(1, VAO)`, `glDeleteBuffers(1, VBO)`,
`glfwTerminate`; nothing before it releases anything or terminates GLFW, the trace ends
with `glfwTerminate`, and `main` returns 0. -/
theorem teardown_order (e : Env) (n fuel : Nat) (hi : e.glfwInit ≠ 0)
    (hw : e.glfwCreateWindow ≠ 0) (hl : e.gladLoadGLLoader ≠ 0) (hc : ClosesAt e n)
    (hf : n < fuel) :
    ∃ pre, main e fuel =
        ⟨some 0, pre ++ [loopHead e, Call.glDeleteVertexArrays 1 e.VAO,
          Call.glDeleteBuffers 1 e.VBO, Call.glfwTerminate]⟩ ∧
      ∀ c, c ∈ pre → c.isRelease = false := by
  refine ⟨setupCalls e ++ (List.replicate n (loopHead e :: frameCalls e)).flatten, ?_, ?_⟩
  · rw [main_closes e n fuel hi hw hl hc hf]
    simp [teardownCalls]
  · intro c hc2
    rcases List.mem_append.mp hc2 with h | h
    · exact setupCalls_no_release e c h
    · apply loopRun_no_release e fuel c
      rw [loopRun_closes e n fuel hc hf]
      exact List.mem_append.mpr (Or.inl h)

/-- Witness of C9 on the sample environment (close request at the third evaluation of the
loop head). -/
theorem teardown_order_witness :
    envOk.glfwInit ≠ 0 ∧ envOk.glfwCreateWindow ≠ 0 ∧ envOk.gladLoadGLLoader ≠ 0 ∧
    ClosesAt envOk 2 ∧ 2 < 3 ∧
    ∃ pre, main envOk 3 =
        ⟨some 0, pre ++ [loopHead envOk, Call.glDeleteVertexArrays 1 envOk.VAO,
          Call.glDeleteBuffers 1 envOk.VBO, Call.glfwTerminate]⟩ ∧
      ∀ c, c ∈ pre → c.isRelease = false :=
  ⟨by decide, by decide, by decide, by decide, by decide,
   teardown_order envOk 2 3 (by decide) (by decide) (by decide) (by decide) (by decide)⟩

/-- C4: `checkShaderCompile` writes to standard error exactly when the queried compile
status is zero, and what it writes is the fixed heading, the stage kind passed in, a line
break, the info log and a line break.  When the vertex stage fails to compile, `main`
reports it with the kind "VERTEX", still attaches both stages and links, still reaches the
loop head, and has the same exit code as the run in which the vertex status is any other
value.  In every run that passes the loader, `main` checks the vertex stage with the kind
"VERTEX" right after compiling it and the fragment stage with the kind "FRAGMENT" right
after compiling it; a failing fragment stage is reported with the kind "FRAGMENT" and the
fragment info log; standard error receives nothing but these two reports, each only when
its stage failed; both stages are attached and linked; and the exit code does not depend
on the fragment status either. -/
theorem shader_failure_nonfatal :
    (∀ (success : Int) (log : String) (shader : Nat) (type : String),
      (∃ s, Call.cerr s ∈ checkShaderCompile success log shader type) ↔ success = 0) ∧
    (∀ (success : Int) (log : String) (shader : Nat) (type s : String),
      Call.cerr s ∈ checkShaderCompile success log shader type →
        s = "ERROR::SHADER_COMPILATION_ERROR of type: " ++ type ++ "\n" ++ log ++ "\n") ∧
    (∀ (e : Env) (fuel : Nat), e.glfwInit ≠ 0 → e.glfwCreateWindow ≠ 0 →
      e.gladLoadGLLoader ≠ 0 → e.vertexStatus = 0 →
        Call.cerr ("ERROR::SHADER_COMPILATION_ERROR of type: " ++ "VERTEX" ++ "\n" ++
            e.vertexLog ++ "\n") ∈ (main e fuel).trace ∧
        [ Call.glAttachShader e.shaderProgram e.vertexShader,
          Call.glAttachShader e.shaderProgram e.fragmentShader,
          Call.glLinkProgram e.shaderProgram ] <:+: (main e fuel).trace ∧
        (0 < fuel → loopHead e ∈ (main e fuel).trace) ∧
        ∀ status : Int,
          (main { e with vertexStatus := status } fuel).code = (main e fuel).code) ∧
    (∀ (e : Env) (fuel : Nat), e.glfwInit ≠ 0 → e.glfwCreateWindow ≠ 0 →
      e.gladLoadGLLoader ≠ 0 →
        (Call.glCompileShader e.vertexShader ::
            checkShaderCompile e.vertexStatus e.vertexLog e.vertexShader "VERTEX") <:+:
          (main e fuel).trace ∧
        (Call.glCompileShader e.fragmentShader ::
            checkShaderCompile e.fragmentStatus e.fragmentLog e.fragmentShader "FRAGMENT") <:+:
          (main e fuel).trace ∧
        (e.fragmentStatus = 0 →
          Call.cerr ("ERROR::SHADER_COMPILATION_ERROR of type: " ++ "FRAGMENT" ++ "\n" ++
            e.fragmentLog ++ "\n") ∈ (main e fuel).trace) ∧
        (∀ s, Call.cerr s ∈ (main e fuel).trace →
          (e.vertexStatus = 0 ∧
            s = "ERROR::SHADER_COMPILATION_ERROR of type: " ++ "VERTEX" ++ "\n" ++
              e.vertexLog ++ "\n") ∨
          (e.fragmentStatus = 0 ∧
            s = "ERROR::SHADER_COMPILATION_ERROR of type: " ++ "FRAGMENT" ++ "\n" ++
              e.fragmentLog ++ "\n")) ∧
        [ Call.glAttachShader e.shaderProgram e.vertexShader,
          Call.glAttachShader e.shaderProgram e.fragmentShader,
          Call.glLinkProgram e.shaderProgram ] <:+: (main e fuel).trace ∧
        (0 < fuel → loopHead e ∈ (main e fuel).trace) ∧
        ∀ status : Int,
          (main { e with fragmentStatus := status } fuel).code = (main e fuel).code) := by
  have hlink : ∀ (e : Env) (fuel : Nat), e.glfwInit ≠ 0 → e.glfwCreateWindow ≠ 0 →
      e.gladLoadGLLoader ≠ 0 →
        [ Call.glAttachShader e.shaderProgram e.vertexShader,
          Call.glAttachShader e.shaderProgram e.fragmentShader,
          Call.glLinkProgram e.shaderProgram ] <:+: (main e fuel).trace := by
    intro e fuel hi hw hl
    rw [main_of_ok e fuel hi hw hl]
    refine ⟨contextCalls e ++ [Call.glViewport 0 0 800 600] ++ geometrySetup e ++
        ([ Call.glCreateShader .GL_VERTEX_SHADER,
           Call.glShaderSource e.vertexShader 1 vertexShaderSource,
           Call.glCompileShader e.vertexShader ] ++
         checkShaderCompile e.vertexStatus e.vertexLog e.vertexShader "VERTEX" ++
         [ Call.glCreateShader .GL_FRAGMENT_SHADER,
           Call.glShaderSource e.fragmentShader 1 fragmentShaderSource,
           Call.glCompileShader e.fragmentShader ] ++
         checkShaderCompile e.fragmentStatus e.fragmentLog e.fragmentShader "FRAGMENT" ++
         [Call.glCreateProgram]),
      [Call.glDeleteShader e.vertexShader, Call.glDeleteShader e.fragmentShader] ++
        (loopRun e fuel).2 ++ (if (loopRun e fuel).1 then teardownCalls e else []), ?_⟩
    simp [setupCalls, shaderBuild]
  have hhead : ∀ (e : Env) (fuel : Nat), e.glfwInit ≠ 0 → e.glfwCreateWindow ≠ 0 →
      e.gladLoadGLLoader ≠ 0 → 0 < fuel → loopHead e ∈ (main e fuel).trace := by
    intro e fuel hi hw hl hf
    rw [main_of_ok e fuel hi hw hl]
    have := renderLoop_head e e.glfwCreateWindow e.shaderProgram e.VAO fuel 0 hf
    simp only [List.mem_append]
    exact Or.inl (Or.inr this)
  refine ⟨?_, ?_, ?_, ?_⟩
  · intro success log shader type
    by_cases h : success = 0 <;> simp [checkShaderCompile, h]
  · intro success log shader type s hs
    by_cases h : success = 0 <;> simp [checkShaderCompile, h] at hs
    rw [hs]
    rfl
  · intro e fuel hi hw hl hv
    refine ⟨?_, hlink e fuel hi hw hl, hhead e fuel hi hw hl, ?_⟩
    · rw [main_of_ok e fuel hi hw hl]
      simp [setupCalls, shaderBuild, checkShaderCompile, hv, compileErrorMessage]
    · intro status
      rw [main_of_ok { e with vertexStatus := status } fuel hi hw hl,
        main_of_ok e fuel hi hw hl]
      have : loopRun { e with vertexStatus := status } fuel = loopRun e fuel :=
        renderLoop_congr e { e with vertexStatus := status } _ _ _ rfl fuel 0
      rw [this]
  · intro e fuel hi hw hl
    refine ⟨?_, ?_, ?_, ?_, hlink e fuel hi hw hl, hhead e fuel hi hw hl, ?_⟩
    · rw [main_of_ok e fuel hi hw hl]
      refine ⟨contextCalls e ++ [Call.glViewport 0 0 800 600] ++ geometrySetup e ++
          [ Call.glCreateShader .GL_VERTEX_SHADER,
            Call.glShaderSource e.vertexShader 1 vertexShaderSource ],
        [ Call.glCreateShader .GL_FRAGMENT_SHADER,
          Call.glShaderSource e.fragmentShader 1 fragmentShaderSource,
          Call.glCompileShader e.fragmentShader ] ++
        checkShaderCompile e.fragmentStatus e.fragmentLog e.fragmentShader "FRAGMENT" ++
        [ Call.glCreateProgram,
          Call.glAttachShader e.shaderProgram e.vertexShader,
          Call.glAttachShader e.shaderProgram e.fragmentShader,
          Call.glLinkProgram e.shaderProgram,
          Call.glDeleteShader e.vertexShader,
          Call.glDeleteShader e.fragmentShader ] ++
        (loopRun e fuel).2 ++ (if (loopRun e fuel).1 then teardownCalls e else []), ?_⟩
      simp [setupCalls, shaderBuild]
    · rw [main_of_ok e fuel hi hw hl]
      refine ⟨contextCalls e ++ [Call.glViewport 0 0 800 600] ++ geometrySetup e ++
          ([ Call.glCreateShader .GL_VERTEX_SHADER,
             Call.glShaderSource e.vertexShader 1 vertexShaderSource,
             Call.glCompileShader e.vertexShader ] ++
           checkShaderCompile e.vertexStatus e.vertexLog e.vertexShader "VERTEX" ++
           [ Call.glCreateShader .GL_FRAGMENT_SHADER,
             Call.glShaderSource e.fragmentShader 1 fragmentShaderSource ]),
        [ Call.glCreateProgram,
          Call.glAttachShader e.shaderProgram e.vertexShader,
          Call.glAttachShader e.shaderProgram e.fragmentShader,
          Call.glLinkProgram e.shaderProgram,
          Call.glDeleteShader e.vertexShader,
          Call.glDeleteShader e.fragmentShader ] ++
        (loopRun e fuel).2 ++ (if (loopRun e fuel).1 then teardownCalls e else []), ?_⟩
      simp [setupCalls, shaderBuild]
    · intro hfr
      rw [main_of_ok e fuel hi hw hl]
      simp [setupCalls, shaderBuild, checkShaderCompile, hfr, compileErrorMessage]
    · intro s hs
      rcases main_ok_mem e fuel hi hw hl _ hs with h | h | h | h | h | h | h
      · simp [contextCalls] at h
      · simp at h
      · simp [geometrySetup] at h
      · by_cases hv : e.vertexStatus = 0 <;> by_cases hfr : e.fragmentStatus = 0 <;>
          simp [shaderBuild, checkShaderCompile, hv, hfr, compileErrorMessage] at h ⊢ <;>
          exact h
      · simp [loopHead] at h
      · simp [frameCalls, frame] at h
      · simp [teardownCalls] at h
    · intro status
      rw [main_of_ok { e with fragmentStatus := status } fuel hi hw hl,
        main_of_ok e fuel hi hw hl]
      have : loopRun { e with fragmentStatus := status } fuel = loopRun e fuel :=
        renderLoop_congr e { e with fragmentStatus := status } _ _ _ rfl fuel 0
      rw [this]

/-- Witness of C4 on the sample environments whose vertex stage, respectively fragment
stage, does not compile: the report on standard error with the stage kind, the link, the
loop head, and the exit code of the run that compiles. -/
theorem shader_failure_nonfatal_witness :
    (envBadVertex.glfwInit ≠ 0 ∧ envBadVertex.glfwCreateWindow ≠ 0 ∧
    envBadVertex.gladLoadGLLoader ≠ 0 ∧ envBadVertex.vertexStatus = 0 ∧
    (Call.cerr ("ERROR::SHADER_COMPILATION_ERROR of type: " ++ "VERTEX" ++ "\n" ++
        envBadVertex.vertexLog ++ "\n") ∈ (main envBadVertex 3).trace ∧
    [ Call.glAttachShader envBadVertex.shaderProgram envBadVertex.vertexShader,
      Call.glAttachShader envBadVertex.shaderProgram envBadVertex.fragmentShader,
      Call.glLinkProgram envBadVertex.shaderProgram ] <:+: (main envBadVertex 3).trace ∧
    (0 < 3 → loopHead envBadVertex ∈ (main envBadVertex 3).trace) ∧
    ∀ status : Int,
      (main { envBadVertex with vertexStatus := status } 3).code =
        (main envBadVertex 3).code)) ∧
    (envBadFragment.glfwInit ≠ 0 ∧ envBadFragment.glfwCreateWindow ≠ 0 ∧
    envBadFragment.gladLoadGLLoader ≠ 0 ∧ envBadFragment.fragmentStatus = 0 ∧
    Call.cerr ("ERROR::SHADER_COMPILATION_ERROR of type: " ++ "FRAGMENT" ++ "\n" ++
        envBadFragment.fragmentLog ++ "\n") ∈ (main envBadFragment 3).trace ∧
    (∀ s, Call.cerr s ∈ (main envBadFragment 3).trace →
      (envBadFragment.vertexStatus = 0 ∧
        s = "ERROR::SHADER_COMPILATION_ERROR of type: " ++ "VERTEX" ++ "\n" ++
          envBadFragment.vertexLog ++ "\n") ∨
      (envBadFragment.fragmentStatus = 0 ∧
        s = "ERROR::SHADER_COMPILATION_ERROR of type: " ++ "FRAGMENT" ++ "\n" ++
          envBadFragment.fragmentLog ++ "\n")) ∧
    (main envBadFragment 3).code = some 0) :=
  ⟨⟨by decide, by decide, by decide, by decide,
    shader_failure_nonfatal.2.2.1 envBadVertex 3 (by decide) (by decide) (by decide)
      (by decide)⟩,
   ⟨by decide, by decide, by decide, by decide,
    (shader_failure_nonfatal.2.2.2 envBadFragment 3 (by decide) (by decide)
      (by decide)).2.2.1 (by decide),
    (shader_failure_nonfatal.2.2.2 envBadFragment 3 (by decide) (by decide)
      (by decide)).2.2.2.1,
    by decide⟩⟩

/-- C5: in a run that reaches the frame loop, if `glfwWindowShouldClose` answers false `n`
times and then true, the loop evaluates its head `n + 1` times and the calls it makes are
`n` repetitions of the head test followed by the frame, then the last head test; without
the head tests this is exactly `n` repetitions of the frame sequence.  The loop is left at
the first close signal: the teardown follows at once, it draws nothing, and the answers
after the first close signal do not change the run. -/
theorem frame_loop_trace (e : Env) (n fuel : Nat) (hi : e.glfwInit ≠ 0)
    (hw : e.glfwCreateWindow ≠ 0) (hl : e.gladLoadGLLoader ≠ 0) (hc : ClosesAt e n)
    (hf : n < fuel) :
    loopRun e fuel =
      (true, (List.replicate n (loopHead e :: frameCalls e)).flatten ++ [loopHead e]) ∧
    (loopRun e fuel).2.filter (fun c => decide (c ≠ loopHead e)) =
      (List.replicate n (frameCalls e)).flatten ∧
    frameCalls e =
      [ Call.glfwPollEvents,
        Call.glClearColor ⟨1, 1⟩ ⟨1, 1⟩ ⟨1, 1⟩ ⟨10, 1⟩,
        Call.glClear .GL_COLOR_BUFFER_BIT,
        Call.glUseProgram e.shaderProgram,
        Call.glBindVertexArray e.VAO,
        Call.glDrawArrays .GL_TRIANGLES 0 3,
        Call.glfwSwapBuffers e.glfwCreateWindow ] ∧
    main e fuel = ⟨some 0, setupCalls e ++ (loopRun e fuel).2 ++ teardownCalls e⟩ ∧
    (∀ m f k, Call.glDrawArrays m f k ∉ teardownCalls e) ∧
    (∀ (g : Nat → Int) (fuel2 : Nat), (∀ k, k ≤ n → g k = e.glfwWindowShouldClose k) →
      n < fuel2 → main { e with glfwWindowShouldClose := g } fuel2 = main e fuel) := by
  have hloop := loopRun_closes e n fuel hc hf
  refine ⟨hloop, ?_, rfl, ?_, ?_, ?_⟩
  · rw [hloop]
    exact filter_frames (loopHead e) (frameCalls e) (loopHead_not_mem_frameCalls e) n
  · rw [main_closes e n fuel hi hw hl hc hf, hloop]
  · intro m f k
    simp [teardownCalls]
  · intro g fuel2 hg hf2
    have hc2 : ClosesAt { e with glfwWindowShouldClose := g } n :=
      ⟨fun k hk => by
          show g k = 0
          rw [hg k (Nat.le_of_lt hk)]
          exact hc.1 k hk,
        by
          show g n ≠ 0
          rw [hg n (Nat.le_refl n)]
          exact hc.2⟩
    rw [main_closes e n fuel hi hw hl hc hf,
      main_closes { e with glfwWindowShouldClose := g } n fuel2 hi hw hl hc2 hf2]
    rfl

/-- Witness of C5 on the sample environment: two frames, then the close request. -/
theorem frame_loop_trace_witness :
    envOk.glfwInit ≠ 0 ∧ envOk.glfwCreateWindow ≠ 0 ∧ envOk.gladLoadGLLoader ≠ 0 ∧
    ClosesAt envOk 2 ∧ 2 < 5 ∧
    (loopRun envOk 5).2.filter (fun c => decide (c ≠ loopHead envOk)) =
      (List.replicate 2 (frameCalls envOk)).flatten :=
  ⟨by decide, by decide, by decide, by decide, by decide,
   (frame_loop_trace envOk 2 5 (by decide) (by decide) (by decide) (by decide)
      (by decide)).2.1⟩

/-- C6: in a run that ends by a close-triggered shutdown, the number of buffer handles
released equals the number generated and the number of vertex-array handles released equals
the number generated, both being one: there is one `glGenBuffers` call and one
`glGenVertexArrays` call, each for 1 handle, and one `glDeleteBuffers` call and one
`glDeleteVertexArrays` call, each for 1 handle and naming the handle `VBO`, respectively
`VAO`, that the generate call stored, however many frames were drawn. -/
theorem handles_released_once (e : Env) (n fuel : Nat) (hi : e.glfwInit ≠ 0)
    (hw : e.glfwCreateWindow ≠ 0) (hl : e.gladLoadGLLoader ≠ 0) (hc : ClosesAt e n)
    (hf : n < fuel) :
    buffersGenerated (main e fuel).trace = 1 ∧
    buffersDeleted (main e fuel).trace = 1 ∧
    buffersDeleted (main e fuel).trace = buffersGenerated (main e fuel).trace ∧
    bufferGenCalls (main e fuel).trace = [1] ∧
    bufferDeleteCalls (main e fuel).trace = [(1, e.VBO)] ∧
    arraysGenerated (main e fuel).trace = 1 ∧
    arraysDeleted (main e fuel).trace = 1 ∧
    arraysDeleted (main e fuel).trace = arraysGenerated (main e fuel).trace ∧
    arrayGenCalls (main e fuel).trace = [1] ∧
    arrayDeleteCalls (main e fuel).trace = [(1, e.VAO)] := by
  rw [main_closes e n fuel hi hw hl hc hf]
  have h1 : buffersGenerated (setupCalls e ++
      ((List.replicate n (loopHead e :: frameCalls e)).flatten ++ [loopHead e]) ++
      teardownCalls e) = 1 := by
    simp only [buffersGenerated, setupCalls, contextCalls, geometrySetup, shaderBuild,
      checkShaderCompile, teardownCalls, loopHead, frameCalls, frame]
    split <;> split <;> simp
  have h2 : buffersDeleted (setupCalls e ++
      ((List.replicate n (loopHead e :: frameCalls e)).flatten ++ [loopHead e]) ++
      teardownCalls e) = 1 := by
    simp only [buffersDeleted, setupCalls, contextCalls, geometrySetup, shaderBuild,
      checkShaderCompile, teardownCalls, loopHead, frameCalls, frame]
    split <;> split <;> simp
  have h3 : bufferGenCalls (setupCalls e ++
      ((List.replicate n (loopHead e :: frameCalls e)).flatten ++ [loopHead e]) ++
      teardownCalls e) = [1] := by
    simp only [bufferGenCalls, setupCalls, contextCalls, geometrySetup, shaderBuild,
      checkShaderCompile, teardownCalls, loopHead, frameCalls, frame]
    split <;> split <;> simp
  have h4 : bufferDeleteCalls (setupCalls e ++
      ((List.replicate n (loopHead e :: frameCalls e)).flatten ++ [loopHead e]) ++
      teardownCalls e) = [(1, e.VBO)] := by
    simp only [bufferDeleteCalls, setupCalls, contextCalls, geometrySetup, shaderBuild,
      checkShaderCompile, teardownCalls, loopHead, frameCalls, frame]
    split <;> split <;> simp
  have h5 : arraysGenerated (setupCalls e ++
      ((List.replicate n (loopHead e :: frameCalls e)).flatten ++ [loopHead e]) ++
      teardownCalls e) = 1 := by
    simp only [arraysGenerated, setupCalls, contextCalls, geometrySetup, shaderBuild,
      checkShaderCompile, teardownCalls, loopHead, frameCalls, frame]
    split <;> split <;> simp
  have h6 : arraysDeleted (setupCalls e ++
      ((List.replicate n (loopHead e :: frameCalls e)).flatten ++ [loopHead e]) ++
      teardownCalls e) = 1 := by
    simp only [arraysDeleted, setupCalls, contextCalls, geometrySetup, shaderBuild,
      checkShaderCompile, teardownCalls, loopHead, frameCalls, frame]
    split <;> split <;> simp
  have h7 : arrayGenCalls (setupCalls e ++
      ((List.replicate n (loopHead e :: frameCalls e)).flatten ++ [loopHead e]) ++
      teardownCalls e) = [1] := by
    simp only [arrayGenCalls, setupCalls, contextCalls, geometrySetup, shaderBuild,
      checkShaderCompile, teardownCalls, loopHead, frameCalls, frame]
    split <;> split <;> simp
  have h8 : arrayDeleteCalls (setupCalls e ++
      ((List.replicate n (loopHead e :: frameCalls e)).flatten ++ [loopHead e]) ++
      teardownCalls e) = [(1, e.VAO)] := by
    simp only [arrayDeleteCalls, setupCalls, contextCalls, geometrySetup, shaderBuild,
      checkShaderCompile, teardownCalls, loopHead, frameCalls, frame]
    split <;> split <;> simp
  exact ⟨h1, h2, by rw [h1, h2], h3, h4, h5, h6, by rw [h5, h6], h7, h8⟩

/-- Witness of C6 on the sample environment (two frames drawn before the close request). -/
theorem handles_released_once_witness :
    envOk.glfwInit ≠ 0 ∧ envOk.glfwCreateWindow ≠ 0 ∧ envOk.gladLoadGLLoader ≠ 0 ∧
    ClosesAt envOk 2 ∧ 2 < 3 ∧
    (buffersGenerated (main envOk 3).trace = 1 ∧
    buffersDeleted (main envOk 3).trace = 1 ∧
    buffersDeleted (main envOk 3).trace = buffersGenerated (main envOk 3).trace ∧
    bufferGenCalls (main envOk 3).trace = [1] ∧
    bufferDeleteCalls (main envOk 3).trace = [(1, envOk.VBO)] ∧
    arraysGenerated (main envOk 3).trace = 1 ∧
    arraysDeleted (main envOk 3).trace = 1 ∧
    arraysDeleted (main envOk 3).trace = arraysGenerated (main envOk 3).trace ∧
    arrayGenCalls (main envOk 3).trace = [1] ∧
    arrayDeleteCalls (main envOk 3).trace = [(1, envOk.VAO)]) :=
  ⟨by decide, by decide, by decide, by decide, by decide,
   handles_released_once envOk 2 3 (by decide) (by decide) (by decide) (by decide)
     (by decide)⟩

/-- C7: in every run, finished or not, each `glDrawArrays` call comes after
`glfwMakeContextCurrent(window)`, `glCreateProgram`, `glGenVertexArrays` and
`glGenBuffers`, and after no call that terminates GLFW or deletes the program, the vertex
array or the buffer; and each OpenGL call comes after `glfwMakeContextCurrent(window)` and
after a `gladLoadGLLoader` call that succeeded. -/
theorem draws_only_while_live (e : Env) (fuel : Nat) :
    (∀ pre post m f k, (main e fuel).trace = pre ++ Call.glDrawArrays m f k :: post →
      Call.glfwMakeContextCurrent e.glfwCreateWindow ∈ pre ∧
      Call.glCreateProgram ∈ pre ∧ Call.glGenVertexArrays 1 ∈ pre ∧
      Call.glGenBuffers 1 ∈ pre ∧ ∀ c, c ∈ pre → c.isRelease = false) ∧
    (∀ pre post c, (main e fuel).trace = pre ++ c :: post → c.isGL = true →
      Call.glfwMakeContextCurrent e.glfwCreateWindow ∈ pre ∧
      Call.gladLoadGLLoader ∈ pre ∧ e.gladLoadGLLoader ≠ 0) := by
  have hok : ∀ pre post c, (main e fuel).trace = pre ++ c :: post → c.isGL = true →
      e.glfwInit ≠ 0 ∧ e.glfwCreateWindow ≠ 0 ∧ e.gladLoadGLLoader ≠ 0 := by
    intro pre post c ht hgl
    by_contra hno
    have hbad : e.glfwInit = 0 ∨ e.glfwCreateWindow = 0 ∨ e.gladLoadGLLoader = 0 := by
      by_cases h1 : e.glfwInit = 0
      · exact Or.inl h1
      by_cases h2 : e.glfwCreateWindow = 0
      · exact Or.inr (Or.inl h2)
      by_cases h3 : e.gladLoadGLLoader = 0
      · exact Or.inr (Or.inr h3)
      exact absurd ⟨h1, h2, h3⟩ hno
    have := main_not_ok_no_gl e fuel hbad c (by rw [ht]; simp)
    rw [this] at hgl
    cases hgl
  refine ⟨?_, ?_⟩
  · intro pre post m f k ht
    obtain ⟨hi, hw, hl⟩ := hok pre post _ ht rfl
    rw [main_ok_trace e fuel hi hw hl] at ht
    obtain ⟨mid, hpre, hrest⟩ := split_left ht.symm (draw_not_mem_setupCalls e m f k)
    have htail : Call.glDrawArrays m f k ∉
        (if (loopRun e fuel).1 then teardownCalls e else []) := by
      split <;> simp [teardownCalls]
    obtain ⟨rest, hloop⟩ := split_right hrest.symm htail
    subst hpre
    refine ⟨?_, ?_, ?_, ?_, ?_⟩
    · simp [setupCalls, contextCalls]
    · simp [setupCalls, shaderBuild]
    · simp [setupCalls, geometrySetup]
    · simp [setupCalls, geometrySetup]
    · intro c hc
      rcases List.mem_append.mp hc with h | h
      · exact setupCalls_no_release e c h
      · exact loopRun_no_release e fuel c (by rw [hloop]; simp [h])
  · intro pre post c ht hgl
    obtain ⟨hi, hw, hl⟩ := hok pre post c ht hgl
    rw [main_ok_trace e fuel hi hw hl, setupCalls, List.append_assoc, List.append_assoc,
      List.append_assoc] at ht
    have hc : c ∉ contextCalls e := by
      intro hmem
      rw [contextCalls_no_gl e c hmem] at hgl
      cases hgl
    obtain ⟨mid, hpre, _⟩ := split_left ht.symm hc
    subst hpre
    exact ⟨by simp [contextCalls], by simp [contextCalls], hl⟩

/-- Witness of C7 on the sample environment: the first draw is the call number 36 of the
trace, and the first OpenGL call, `glViewport`, is the call number 8. -/
theorem draws_only_while_live_witness :
    ((main envOk 3).trace =
        (main envOk 3).trace.take 36 ++ Call.glDrawArrays .GL_TRIANGLES 0 3 ::
          (main envOk 3).trace.drop 37 ∧
      Call.glfwMakeContextCurrent envOk.glfwCreateWindow ∈ (main envOk 3).trace.take 36 ∧
      Call.glCreateProgram ∈ (main envOk 3).trace.take 36 ∧
      Call.glGenVertexArrays 1 ∈ (main envOk 3).trace.take 36 ∧
      Call.glGenBuffers 1 ∈ (main envOk 3).trace.take 36 ∧
      ∀ c, c ∈ (main envOk 3).trace.take 36 → c.isRelease = false) ∧
    ((main envOk 3).trace =
        (main envOk 3).trace.take 8 ++ Call.glViewport 0 0 800 600 ::
          (main envOk 3).trace.drop 9 ∧
      (Call.glViewport 0 0 800 600).isGL = true ∧
      Call.glfwMakeContextCurrent envOk.glfwCreateWindow ∈ (main envOk 3).trace.take 8 ∧
      Call.gladLoadGLLoader ∈ (main envOk 3).trace.take 8 ∧
      envOk.gladLoadGLLoader ≠ 0) :=
  ⟨⟨by decide,
    (draws_only_while_live envOk 3).1 ((main envOk 3).trace.take 36)
      ((main envOk 3).trace.drop 37) .GL_TRIANGLES 0 3 (by decide)⟩,
   ⟨by decide, by decide,
    (draws_only_while_live envOk 3).2 ((main envOk 3).trace.take 8)
      ((main envOk 3).trace.drop 9) (Call.glViewport 0 0 800 600) (by decide) (by decide)⟩⟩

/-- C10: in every run that passes the loader, finished or not, the geometry setup sequence
stands between `glViewport` and the shader build, before the frame loop; it occurs exactly
once in the trace and never in the calls of the loop.  The only upload is the 9 floats of
`vertices`, 9 * 4 = 36 bytes, with `GL_STATIC_DRAW`; the only attribute declaration is
attribute 0 with 3 floats, not normalized, stride 3 * 4 = 12 bytes, offset 0; and every
draw is `glDrawArrays(GL_TRIANGLES, 0, 3)`, whose 3 vertices of 12 bytes are the 36 bytes
uploaded. -/
theorem geometry_setup_once (e : Env) (fuel : Nat) (hi : e.glfwInit ≠ 0)
    (hw : e.glfwCreateWindow ≠ 0) (hl : e.gladLoadGLLoader ≠ 0) :
    (∃ tail, (main e fuel).trace =
        contextCalls e ++ [Call.glViewport 0 0 800 600] ++ geometrySetup e ++
          shaderBuild e ++ (loopRun e fuel).2 ++ tail) ∧
    occurrences (geometrySetup e) (main e fuel).trace = 1 ∧
    occurrences (geometrySetup e) (loopRun e fuel).2 = 0 ∧
    (∀ tg sz d u, Call.glBufferData tg sz d u ∈ (main e fuel).trace →
      sz = 36 ∧ d = vertices ∧ d.length = 9 ∧ sz = d.length * sizeofFloat ∧
        u = .GL_STATIC_DRAW) ∧
    (∀ i sz ty nm st off, Call.glVertexAttribPointer i sz ty nm st off ∈ (main e fuel).trace →
      i = 0 ∧ sz = 3 ∧ ty = .GL_FLOAT ∧ nm = .GL_FALSE ∧ st = 12 ∧ st = 3 * sizeofFloat ∧
        off = 0) ∧
    (∀ m f k, Call.glDrawArrays m f k ∈ (main e fuel).trace →
      m = .GL_TRIANGLES ∧ f = 0 ∧ k = 3 ∧ (f + k) * (3 * sizeofFloat) =
        vertices.length * sizeofFloat) := by
  have hloopmem : ∀ c, c ∈ (loopRun e fuel).2 → c = loopHead e ∨ c ∈ frameCalls e :=
    fun c hc => renderLoop_mem e _ _ _ fuel 0 c hc
  have hgenloop : Call.glGenVertexArrays 1 ∉ (loopRun e fuel).2 := by
    intro h
    rcases hloopmem _ h with h2 | h2
    · simp [loopHead] at h2
    · simp [frameCalls, frame] at h2
  have hgenbuild : Call.glGenVertexArrays 1 ∉ shaderBuild e := by
    intro h
    have := shaderBuild_mem_cases e _ h
    simp at this
  refine ⟨⟨if (loopRun e fuel).1 then teardownCalls e else [], ?_⟩, ?_, ?_, ?_, ?_, ?_⟩
  · rw [main_ok_trace e fuel hi hw hl]
    simp [setupCalls]
  · have htrace : (main e fuel).trace =
        (contextCalls e ++ [Call.glViewport 0 0 800 600]) ++ (geometrySetup e ++
          (shaderBuild e ++ ((loopRun e fuel).2 ++
            if (loopRun e fuel).1 then teardownCalls e else []))) := by
      rw [main_ok_trace e fuel hi hw hl]
      simp [setupCalls]
    rw [htrace]
    simp only [geometrySetup]
    rw [occurrences_append _ _ _ _ (by simp [contextCalls])]
    apply occurrences_self
    simp only [List.mem_append, not_or]
    refine ⟨by simp, hgenbuild, hgenloop, ?_⟩
    split <;> simp [teardownCalls]
  · simp only [geometrySetup]
    exact occurrences_eq_zero _ _ _ hgenloop
  · intro tg sz d u hc
    rcases main_ok_mem e fuel hi hw hl _ hc with h | h | h | h | h | h | h
    · simp [contextCalls] at h
    · simp at h
    · simp only [geometrySetup, List.mem_cons, List.mem_singleton, List.not_mem_nil,
        Call.glBufferData.injEq, false_or, or_false, reduceCtorEq] at h
      obtain ⟨_, rfl, rfl, rfl⟩ := h
      exact ⟨rfl, rfl, rfl, rfl, rfl⟩
    · have := shaderBuild_mem_cases e _ h
      simp at this
    · simp [loopHead] at h
    · simp [frameCalls, frame] at h
    · simp [teardownCalls] at h
  · intro i sz ty nm st off hc
    rcases main_ok_mem e fuel hi hw hl _ hc with h | h | h | h | h | h | h
    · simp [contextCalls] at h
    · simp at h
    · simp only [geometrySetup, List.mem_cons, List.mem_singleton, List.not_mem_nil,
        Call.glVertexAttribPointer.injEq, false_or, or_false, reduceCtorEq] at h
      obtain ⟨rfl, rfl, rfl, rfl, rfl, rfl⟩ := h
      exact ⟨rfl, rfl, rfl, rfl, rfl, rfl, rfl⟩
    · have := shaderBuild_mem_cases e _ h
      simp at this
    · simp [loopHead] at h
    · simp [frameCalls, frame] at h
    · simp [teardownCalls] at h
  · intro m f k hc
    rcases main_ok_mem e fuel hi hw hl _ hc with h | h | h | h | h | h | h
    · simp [contextCalls] at h
    · simp at h
    · simp [geometrySetup] at h
    · have := shaderBuild_mem_cases e _ h
      simp at this
    · simp [loopHead] at h
    · simp only [frameCalls, frame, List.mem_cons, List.mem_singleton, List.not_mem_nil,
        Call.glDrawArrays.injEq, false_or, or_false, reduceCtorEq] at h
      obtain ⟨rfl, rfl, rfl⟩ := h
      exact ⟨rfl, rfl, rfl, rfl⟩
    · simp [teardownCalls] at h

/-- Witness of C10 on the sample environment, with two frames drawn: one occurrence of
the setup sequence in the run, none in the loop. -/
theorem geometry_setup_once_witness :
    envOk.glfwInit ≠ 0 ∧ envOk.glfwCreateWindow ≠ 0 ∧ envOk.gladLoadGLLoader ≠ 0 ∧
    occurrences (geometrySetup envOk) (main envOk 3).trace = 1 ∧
    occurrences (geometrySetup envOk) (loopRun envOk 3).2 = 0 :=
  ⟨by decide, by decide, by decide,
   (geometry_setup_once envOk 3 (by decide) (by decide) (by decide)).2.1,
   (geometry_setup_once envOk 3 (by decide) (by decide) (by decide)).2.2.1⟩

end Triangle
